import Mathlib

/-!
ServerSocket: a shallow embedding of `src/ServerSocket/ServerSocket.cpp`

The embedding follows the `__linux__` branch of the source.  The operating
system is an oracle (`Kernel`): the value a primitive returns is an arbitrary
function of the primitives issued so far and of the request itself, so that a
statement quantified over the oracle holds for every behaviour of the system.
Every primitive the code issues is logged in the `World`, newest first.

Conventions
* `unsigned int` values are natural numbers; the conversions the source
  applies to them (`htons`, `static_cast<uint8_t>`, the implicit conversion to
  `int` of the backlog) are written out with explicit `%`.
* a member function takes the object (`self`) and the world and returns an
  `Outcome`: the value or the exception, the object as the call left it, and
  the world as the call left it.
* `catch (BindingException)` catches `BindingException` only; the exception
  headers are not part of the sources, the three classes are taken as
  unrelated siblings.
-/

namespace kt

/-! ## Data model -/

/-- Transport kind `kt::SocketType` (the enumerators used by the source). -/
inductive SocketType where
  | Wifi
  | Bluetooth
  deriving DecidableEq, Repr

/-- Protocol kind `kt::SocketProtocol`.  The source names `TCP` only; the
enumeration itself is declared outside the given sources. -/
inductive SocketProtocol where
  | TCP
  | UDP
  deriving DecidableEq, Repr

/-- The three exception classes the source throws, each with its message. -/
inductive Exception where
  | SocketException (what : String)
  | BindingException (what : String)
  | TimeoutException (what : String)
  deriving DecidableEq, Repr

/-- Either a returned value or a thrown exception. -/
inductive Result (α : Type) where
  | ok (value : α)
  | throw (e : Exception)
  deriving DecidableEq, Repr

/-- The address `struct sockaddr_in`; `sin_port` holds the 16-bit value as
stored in memory (network byte order). -/
structure sockaddr_in where
  sin_family : Nat
  sin_port : Nat
  sin_addr : Nat
  deriving DecidableEq, Repr

/-- The address `struct sockaddr_rc`; `rc_channel` is an 8-bit field. -/
structure sockaddr_rc where
  rc_family : Nat
  rc_bdaddr : Nat
  rc_channel : Nat
  deriving DecidableEq, Repr

/-- The address argument of `bind`, of either family. -/
inductive SockAddr where
  | inet (a : sockaddr_in)
  | rc (a : sockaddr_rc)
  deriving DecidableEq, Repr

/-- The operating-system primitives the source issues, with their arguments. -/
inductive Call where
  | socket (domain type protocol : Nat)
  | bind (fd : Int) (addr : SockAddr) (len : Nat)
  | listen (fd : Int) (backlog : Int)
  | select (nfds : Int) (readfd : Int) (tv_sec tv_usec : Nat)
  | accept (fd : Int) (addrlen : Nat)
  | getpeername (fd : Int) (addrlen : Nat)
  | close (fd : Int)
  deriving DecidableEq, Repr

/-- The operating system and C library as an oracle.  `ret past c` is the value
primitive `c` returns when `past` (newest first) are the primitives issued
before it, `err past c` the `errno` it leaves when it fails; `peer`, `remote`
and `addrlen` are the out-parameters of `getpeername` and `accept`. -/
structure Kernel where
  ret : List Call → Call → Int
  err : List Call → Call → Nat
  peer : List Call → Call → sockaddr_in
  remote : List Call → Call → sockaddr_rc
  addrlen : List Call → Call → Nat
  strerror : Nat → String
  inet_ntoa : Nat → String
  ba2str : Nat → String

/-- The observable state outside the object: the log of primitives issued
(newest first), the descriptors currently open, `errno` and standard output. -/
structure World where
  calls : List Call
  handles : List Int
  errno : Nat
  stdout : List String
  deriving DecidableEq, Repr

/-- The fields of `kt::ServerSocket` (Linux). -/
structure ServerSocket where
  port : Nat
  type : SocketType
  socketDescriptor : Int
  serverAddress : sockaddr_in
  socketSize : Nat
  deriving DecidableEq, Repr

/-- The arguments `kt::Socket` is constructed from in `accept`; the class itself
is outside the given sources. -/
structure Socket where
  socketDescriptor : Int
  type : SocketType
  protocol : SocketProtocol
  hostname : String
  port : Nat
  deriving DecidableEq, Repr

/-- What a member function leaves behind: its result, the object, the world. -/
structure Outcome (α : Type) where
  result : Result α
  self : ServerSocket
  world : World

/-! ## Constants of the system headers (Linux values) -/

def AF_INET : Nat := 2

def AF_BLUETOOTH : Nat := 31

def SOCK_STREAM : Nat := 1

def BTPROTO_RFCOMM : Nat := 3

def INADDR_ANY : Nat := 0

def EACCES : Nat := 13

def EADDRINUSE : Nat := 98

/-- The size `sizeof(struct sockaddr_in)`. -/
def sizeof_sockaddr_in : Nat := 16

/-- The size `sizeof(struct sockaddr_rc)`. -/
def sizeof_sockaddr_rc : Nat := 10

/-! ## Integer conversions -/

/-- Conversion `htons`: the argument is converted to `uint16_t` (reduced modulo
`2^16`) and its two bytes are exchanged (little-endian host). -/
def htons (hostshort : Nat) : Nat :=
  (hostshort % 65536 % 256) * 256 + hostshort % 65536 / 256

/-- Conversion `ntohs`, by which the kernel reads the port number out of
`sin_port`: the same exchange of bytes. -/
def ntohs (netshort : Nat) : Nat :=
  htons netshort

/-- Conversion `static_cast<uint8_t>`. -/
def toUInt8 (n : Nat) : Nat :=
  n % 256

/-- Implicit conversion of an `unsigned int` to `int` (two's complement, 32 bits). -/
def toInt32 (n : Nat) : Int :=
  if n % 4294967296 < 2147483648 then (n % 4294967296 : Nat) else (n % 4294967296 : Nat) - 4294967296

/-- A draw of `std::uniform_int_distribution<>(a, b)`: some value of the closed
interval `[a, b]`, chosen by the generator output `raw`.  Every value of the
interval is reached (by `raw = v - a`). -/
def uniform_int_distribution (a b raw : Nat) : Nat :=
  a + raw % (b - a + 1)

/-- The distribution `wifiRand(49152, 65535)`. -/
def wifiRand (raw : Nat) : Nat :=
  uniform_int_distribution 49152 65535 raw

/-- The distribution `btRand(1, 30)`. -/
def btRand (raw : Nat) : Nat :=
  uniform_int_distribution 1 30 raw

/-! ## Issuing a primitive -/

/-- Issue primitive `c`: ask the oracle for the returned value, log the call,
set `errno` when the call fails, and keep the table of open descriptors
(`socket` and `accept` open the descriptor they return, `close` releases its
argument). -/
def sys (k : Kernel) (c : Call) (w : World) : Int × World :=
  let r := k.ret w.calls c
  (r,
   { calls := c :: w.calls,
     handles :=
       match c with
       | Call.socket _ _ _ => if r = -1 then w.handles else r :: w.handles
       | Call.accept _ _ => if r = -1 then w.handles else r :: w.handles
       | Call.close fd => w.handles.erase fd
       | _ => w.handles,
     errno := if r = -1 then k.err w.calls c else w.errno,
     stdout := w.stdout })

/-! ## Member functions -/

/-- Member `ServerSocket::close` (Linux): `::close(this->socketDescriptor)`;
the object is not modified and nothing is thrown. -/
def close (k : Kernel) (self : ServerSocket) (w : World) : Outcome Unit :=
  ⟨Result.ok (), self, (sys k (Call.close self.socketDescriptor) w).2⟩

/-- Member `ServerSocket::getPort`. -/
def getPort (self : ServerSocket) : Nat :=
  self.port

/-- Member `ServerSocket::getType`. -/
def getType (self : ServerSocket) : SocketType :=
  self.type

/-- Member `ServerSocket::constructWifiSocket` (Linux). -/
def constructWifiSocket (k : Kernel) (connectionBacklogSize : Nat) (self : ServerSocket)
    (w : World) : Outcome Unit :=
  let self1 := { self with socketSize := sizeof_sockaddr_in }
  let s := sys k (Call.socket AF_INET SOCK_STREAM 0) w
  let self2 := { self1 with socketDescriptor := s.1 }
  if s.1 = -1 then
    ⟨Result.throw (Exception.SocketException
      ("Error establishing wifi server socket: " ++ k.strerror s.2.errno)), self2, s.2⟩
  else
    let self3 := { self2 with
      serverAddress := ⟨AF_INET, htons self2.port, htons INADDR_ANY⟩ }
    let b := sys k (Call.bind self3.socketDescriptor (SockAddr.inet self3.serverAddress)
      sizeof_sockaddr_in) s.2
    if b.1 = -1 then
      ⟨Result.throw (Exception.BindingException
        ("Error binding connection, the port " ++ toString self3.port
          ++ " is already being used: " ++ k.strerror b.2.errno)), self3, b.2⟩
    else
      let l := sys k (Call.listen self3.socketDescriptor (toInt32 connectionBacklogSize)) b.2
      if l.1 = -1 then
        let c := close k self3 l.2
        ⟨Result.throw (Exception.SocketException
          ("Error Listening on port " ++ toString c.self.port ++ ": "
            ++ k.strerror c.world.errno)), c.self, c.world⟩
      else
        ⟨Result.ok (), self3, l.2⟩

/-- Member `ServerSocket::constructBluetoothSocket` (Linux). -/
def constructBluetoothSocket (k : Kernel) (connectionBacklogSize : Nat) (self : ServerSocket)
    (w : World) : Outcome Unit :=
  let self1 := { self with socketSize := sizeof_sockaddr_rc }
  let s := sys k (Call.socket AF_BLUETOOTH SOCK_STREAM BTPROTO_RFCOMM) w
  let self2 := { self1 with socketDescriptor := s.1 }
  if s.1 = -1 then
    ⟨Result.throw (Exception.SocketException
      ("Error establishing BT server socket: " ++ k.strerror s.2.errno)), self2, s.2⟩
  else
    let localAddress : sockaddr_rc := ⟨AF_BLUETOOTH, 0, toUInt8 self2.port⟩
    let b := sys k (Call.bind self2.socketDescriptor (SockAddr.rc localAddress)
      sizeof_sockaddr_rc) s.2
    if b.1 = -1 then
      ⟨Result.throw (Exception.BindingException
        ("Error binding BT connection, the port " ++ toString self2.port
          ++ " is already being used: " ++ k.strerror b.2.errno)), self2, b.2⟩
    else
      let l := sys k (Call.listen self2.socketDescriptor (toInt32 connectionBacklogSize)) b.2
      if l.1 = -1 then
        let c := close k self2 l.2
        ⟨Result.throw (Exception.SocketException
          ("Error Listening on port " ++ toString c.self.port ++ ": "
            ++ k.strerror c.world.errno)), c.self, c.world⟩
      else
        ⟨Result.ok (), self2, l.2⟩

/-- Member `ServerSocket::setDiscoverable` (Linux): the first statement throws,
the rest of the body is never reached. -/
def setDiscoverable (_k : Kernel) (self : ServerSocket) (w : World) : Outcome Unit :=
  ⟨Result.throw (Exception.SocketException "Still in progress."), self, w⟩

/-- Member `ServerSocket::constructSocket`. -/
def constructSocket (k : Kernel) (connectionBacklogSize : Nat) (self : ServerSocket)
    (w : World) : Outcome Unit :=
  if self.type = SocketType.Wifi then
    constructWifiSocket k connectionBacklogSize self w
  else
    match constructBluetoothSocket k connectionBacklogSize self w with
    | ⟨Result.ok _, self1, w1⟩ => setDiscoverable k self1 w1
    | o => o

/-- The body of the `while (!done)` loop of `ServerSocket::randomlyAllocatePort`,
run for at most `fuel` iterations; `gen i` is the generator output used by the
iteration of index `i`.  The result is `none` when the iterations run out before
the loop ends. -/
def randomlyAllocatePortLoop (k : Kernel) (gen : Nat → Nat) (connectionBacklogSize : Nat) :
    Nat → Nat → ServerSocket → World → Option (Outcome Unit)
  | 0, _, _, _ => none
  | fuel + 1, i, self, w =>
    let self1 := { self with
      port := if self.type = SocketType.Wifi then wifiRand (gen i) else btRand (gen i) }
    match constructSocket k connectionBacklogSize self1 w with
    | ⟨Result.ok _, self2, w2⟩ => some ⟨Result.ok (), self2, w2⟩
    | ⟨Result.throw (Exception.BindingException _), self2, w2⟩ =>
      randomlyAllocatePortLoop k gen connectionBacklogSize fuel (i + 1) self2 w2
    | o => some o

/-- Member `ServerSocket::randomlyAllocatePort`. -/
def randomlyAllocatePort (k : Kernel) (gen : Nat → Nat) (fuel : Nat)
    (connectionBacklogSize : Nat) (self : ServerSocket) (w : World) : Option (Outcome Unit) :=
  randomlyAllocatePortLoop k gen connectionBacklogSize fuel 0 self w

/-- The constructor `ServerSocket::ServerSocket(type, port, connectionBacklogSize)`
(Linux).  The fields the constructor does not assign start at zero.  A thrown
exception leaves no object; `none` means the allocation loop did not end within
`fuel` iterations. -/
def ServerSocket.construct (k : Kernel) (gen : Nat → Nat) (fuel : Nat) (type : SocketType)
    (port : Nat) (connectionBacklogSize : Nat) (w : World) :
    Option (Result ServerSocket × World) :=
  let self : ServerSocket :=
    { port := port, type := type, socketDescriptor := 0,
      serverAddress := ⟨0, 0, 0⟩, socketSize := 0 }
  let run : Option (Outcome Unit) :=
    if self.port = 0 then
      randomlyAllocatePort k gen fuel connectionBacklogSize self w
    else
      some (constructSocket k connectionBacklogSize self w)
  match run with
  | none => none
  | some ⟨Result.ok _, self1, w1⟩ => some (Result.ok self1, w1)
  | some ⟨Result.throw e, _, w1⟩ => some (Result.throw e, w1)

/-- Member `ServerSocket::accept` (Linux). -/
def accept (k : Kernel) (timeout : Nat) (self : ServerSocket) (w : World) : Outcome Socket :=
  let poll : Option Exception × World :=
    if timeout ≠ 0 then
      let r := sys k (Call.select (self.socketDescriptor + 1) self.socketDescriptor 0 timeout) w
      if r.1 = -1 then
        (some (Exception.SocketException "Failed to poll as socket is no longer valid."), r.2)
      else if r.1 = 0 then
        (some (Exception.TimeoutException
          ("No applicable connections could be accepted during the time period specified "
            ++ toString timeout ++ " microseconds.")), r.2)
      else (none, r.2)
    else (none, w)
  match poll with
  | (some e, w1) => ⟨Result.throw e, self, w1⟩
  | (none, w1) =>
    let request := Call.accept self.socketDescriptor self.socketSize
    let remoteDevice := k.remote w1.calls request
    let self1 := { self with socketSize := k.addrlen w1.calls request }
    let a := sys k request w1
    if a.1 = -1 then
      ⟨Result.throw (Exception.SocketException
        "Failed to accept connection. Socket is in an invalid state."), self1, a.2⟩
    else
      let w2 : World :=
        if self1.type = SocketType.Bluetooth then
          { a.2 with stdout :=
              ("Accepted connection from " ++ k.ba2str remoteDevice.rc_bdaddr) :: a.2.stdout }
        else a.2
      let lookup := Call.getpeername a.1 sizeof_sockaddr_in
      let address := k.peer w2.calls lookup
      let g := sys k lookup w2
      let hostname := if g.1 = 0 then k.inet_ntoa address.sin_addr else ""
      let portnum := if g.1 = 0 then htons address.sin_port else 0
      ⟨Result.ok ⟨a.1, self1.type, SocketProtocol.TCP, hostname, portnum⟩, self1, g.2⟩

/-! ## Concrete systems, used to evaluate the code on explicit inputs -/

/-- The world before any primitive was issued. -/
def World.initial : World :=
  { calls := [], handles := [], errno := 0, stdout := [] }

/-- Whether a logged primitive is a `bind`. -/
def Call.isBind : Call → Bool
  | Call.bind _ _ _ => true
  | _ => false

/-- Whether a logged primitive is a `socket`. -/
def Call.isSocket : Call → Bool
  | Call.socket _ _ _ => true
  | _ => false

/-- A system that answers each kind of primitive with a fixed value: `socket`
returns `3` plus the number of earlier `socket` calls, `bind`, `listen`,
`select`, `accept` and `getpeername` return the given values, `close` returns
`0`, and a failing primitive leaves `errno`. -/
def Kernel.fixed (bindRet listenRet selectRet acceptRet peerRet : Int) (errno : Nat) : Kernel :=
  { ret := fun past c =>
      match c with
      | Call.socket _ _ _ => 3 + ((past.filter Call.isSocket).length : Nat)
      | Call.bind _ _ _ => bindRet
      | Call.listen _ _ => listenRet
      | Call.select _ _ _ _ => selectRet
      | Call.accept _ _ => acceptRet
      | Call.getpeername _ _ => peerRet
      | Call.close _ => 0,
    err := fun _ _ => errno,
    peer := fun _ _ => ⟨AF_INET, htons 40000, 16777343⟩,
    remote := fun _ _ => ⟨AF_BLUETOOTH, 0, 0⟩,
    addrlen := fun _ _ => sizeof_sockaddr_in,
    strerror := fun e => "errno " ++ toString e,
    inet_ntoa := fun _ => "127.0.0.1",
    ba2str := fun _ => "00:00:00:00:00:00" }

/-- A system in which every primitive succeeds. -/
def Kernel.healthy : Kernel :=
  Kernel.fixed 0 0 1 7 0 0

/-- A system in which the first `n` calls of `bind` fail with `EADDRINUSE` and
every other primitive succeeds. -/
def Kernel.busy (n : Nat) : Kernel :=
  { Kernel.healthy with
    ret := fun past c =>
      match c with
      | Call.bind _ _ _ => if (past.filter Call.isBind).length < n then -1 else 0
      | _ => Kernel.healthy.ret past c,
    err := fun _ _ => EADDRINUSE }

/-! ## Vocabulary of the statements -/

/-- The candidate the allocation loop assigns to `port` in the iteration of index `i`. -/
def candidate (gen : Nat → Nat) (type : SocketType) (i : Nat) : Nat :=
  if type = SocketType.Wifi then wifiRand (gen i) else btRand (gen i)

/-- The iteration of index `i` of the allocation loop, taken alone: assign the
candidate to `port` and call `constructSocket`. -/
def attempt (k : Kernel) (gen : Nat → Nat) (connectionBacklogSize : Nat) (i : Nat)
    (self : ServerSocket) (w : World) : Outcome Unit :=
  constructSocket k connectionBacklogSize { self with port := candidate gen self.type i } w

/-- The attempt on the candidate of index `i + n`, made in the object and world
that the attempts on the candidates `i`, ..., `i + n - 1` left behind, one after
the other, starting from `self` and `w`. -/
def nthAttempt (k : Kernel) (gen : Nat → Nat) (connectionBacklogSize : Nat) :
    Nat → Nat → ServerSocket → World → Outcome Unit
  | 0, i, self, w => attempt k gen connectionBacklogSize i self w
  | n + 1, i, self, w =>
    nthAttempt k gen connectionBacklogSize n (i + 1)
      (attempt k gen connectionBacklogSize i self w).self
      (attempt k gen connectionBacklogSize i self w).world

/-- Whether a result is a thrown `BindingException`. -/
def Result.isBinding {α : Type} : Result α → Bool
  | Result.throw (Exception.BindingException _) => true
  | _ => false

/-- Whether a result is a thrown `SocketException`. -/
def Result.isSocketException {α : Type} : Result α → Bool
  | Result.throw (Exception.SocketException _) => true
  | _ => false

/-- Whether a result is a thrown `TimeoutException`. -/
def Result.isTimeout {α : Type} : Result α → Bool
  | Result.throw (Exception.TimeoutException _) => true
  | _ => false

/-- Whether a result is a returned value. -/
def Result.isOk {α : Type} : Result α → Bool
  | Result.ok _ => true
  | _ => false


/-- The readiness poll `accept` issues when its timeout is not zero. -/
def pollRequest (timeout : Nat) (self : ServerSocket) : Call :=
  Call.select (self.socketDescriptor + 1) self.socketDescriptor 0 timeout

/-- The native accept primitive as `accept` issues it. -/
def acceptRequest (self : ServerSocket) : Call :=
  Call.accept self.socketDescriptor self.socketSize

/-- The primitives already issued when `accept` reaches the native accept
primitive: those of the caller, and the poll when the timeout is not zero. -/
def pastAtAccept (timeout : Nat) (self : ServerSocket) (w : World) : List Call :=
  if timeout = 0 then w.calls else pollRequest timeout self :: w.calls

/-- The peer lookup `accept` issues on the accepted descriptor. -/
def lookupRequest (handle : Int) : Call :=
  Call.getpeername handle sizeof_sockaddr_in


/-- The `socket` primitive construction issues for a transport kind. -/
def socketRequest (type : SocketType) : Call :=
  if type = SocketType.Wifi then Call.socket AF_INET SOCK_STREAM 0
  else Call.socket AF_BLUETOOTH SOCK_STREAM BTPROTO_RFCOMM

/-- The `bind` primitive construction issues on descriptor `fd` for port `port`. -/
def bindRequest (type : SocketType) (port : Nat) (fd : Int) : Call :=
  if type = SocketType.Wifi then
    Call.bind fd (SockAddr.inet ⟨AF_INET, htons port, htons INADDR_ANY⟩) sizeof_sockaddr_in
  else
    Call.bind fd (SockAddr.rc ⟨AF_BLUETOOTH, 0, toUInt8 port⟩) sizeof_sockaddr_rc

/-- The `listen` primitive construction issues on descriptor `fd`. -/
def listenRequest (backlog : Nat) (fd : Int) : Call :=
  Call.listen fd (toInt32 backlog)

/-- What `socket` returns to a construction started in world `w`. -/
def socketReturn (k : Kernel) (type : SocketType) (w : World) : Int :=
  k.ret w.calls (socketRequest type)

/-- What `bind` returns to a construction started in world `w`, once `socket`
has returned. -/
def bindReturn (k : Kernel) (type : SocketType) (port : Nat) (w : World) : Int :=
  k.ret (socketRequest type :: w.calls) (bindRequest type port (socketReturn k type w))

/-- The `errno` a failing `bind` leaves to a construction started in world `w`. -/
def bindErrno (k : Kernel) (type : SocketType) (port : Nat) (w : World) : Nat :=
  k.err (socketRequest type :: w.calls) (bindRequest type port (socketReturn k type w))

/-- What `listen` returns to a construction started in world `w`, once `socket`
and `bind` have returned. -/
def listenReturn (k : Kernel) (type : SocketType) (port backlog : Nat) (w : World) : Int :=
  k.ret (bindRequest type port (socketReturn k type w) :: socketRequest type :: w.calls)
    (listenRequest backlog (socketReturn k type w))

/-- The port number the kernel reads out of the address given to `bind`. -/
def boundPort : SockAddr → Nat
  | SockAddr.inet a => ntohs a.sin_port
  | SockAddr.rc a => a.rc_channel

/-- The object the constructor starts from. -/
def ServerSocket.fresh (type : SocketType) (port : Nat) : ServerSocket :=
  { port := port, type := type, socketDescriptor := 0, serverAddress := ⟨0, 0, 0⟩,
    socketSize := 0 }

/-! # Theorems -/

/-! ## Frame lemmas: construction assigns neither `port` nor `type` -/

theorem constructWifiSocket_port (k : Kernel) (b : Nat) (self : ServerSocket) (w : World) :
    (constructWifiSocket k b self w).self.port = self.port ∧
      (constructWifiSocket k b self w).self.type = self.type := by
  unfold constructWifiSocket close
  dsimp only
  split_ifs <;> exact ⟨rfl, rfl⟩

theorem constructBluetoothSocket_port (k : Kernel) (b : Nat) (self : ServerSocket) (w : World) :
    (constructBluetoothSocket k b self w).self.port = self.port ∧
      (constructBluetoothSocket k b self w).self.type = self.type := by
  unfold constructBluetoothSocket close
  dsimp only
  split_ifs <;> exact ⟨rfl, rfl⟩

theorem constructSocket_port (k : Kernel) (b : Nat) (self : ServerSocket) (w : World) :
    (constructSocket k b self w).self.port = self.port ∧
      (constructSocket k b self w).self.type = self.type := by
  unfold constructSocket
  split_ifs with h
  · exact constructWifiSocket_port k b self w
  · have hb := constructBluetoothSocket_port k b self w
    split
    · rename_i u s1 w1 heq
      rw [heq] at hb
      exact hb
    · exact hb

/-- On the radio transport `constructSocket` never returns: when
`constructBluetoothSocket` returns, `setDiscoverable` throws. -/
theorem constructSocket_bluetooth_not_ok (k : Kernel) (b : Nat) (self : ServerSocket) (w : World)
    (h : self.type = SocketType.Bluetooth) (u : Unit) :
    (constructSocket k b self w).result ≠ Result.ok u := by
  unfold constructSocket
  rw [if_neg (by rw [h]; decide)]
  generalize constructBluetoothSocket k b self w = o
  rcases o with ⟨r, s1, w1⟩
  cases r <;> simp [setDiscoverable]

/-- A draw of the distribution lies in its interval. -/
theorem uniform_int_distribution_range (a b raw : Nat) (hab : a ≤ b) :
    a ≤ uniform_int_distribution a b raw ∧ uniform_int_distribution a b raw ≤ b := by
  unfold uniform_int_distribution
  have := Nat.mod_lt raw (show 0 < b - a + 1 by omega)
  omega

/-- Every value of the interval is a draw of the distribution. -/
theorem uniform_int_distribution_onto (a b v : Nat) (h1 : a ≤ v) (h2 : v ≤ b) :
    uniform_int_distribution a b (v - a) = v := by
  unfold uniform_int_distribution
  rw [Nat.mod_eq_of_lt (by omega)]
  omega

/-- When the allocation loop ends without an exception, the object carries the
transport kind it started with and its port is one of the candidates drawn. -/
theorem randomlyAllocatePortLoop_ok (k : Kernel) (gen : Nat → Nat) (b : Nat) :
    ∀ (fuel i : Nat) (self : ServerSocket) (w : World) (o : Outcome Unit) (u : Unit),
      randomlyAllocatePortLoop k gen b fuel i self w = some o → o.result = Result.ok u →
        o.self.type = self.type ∧ ∃ j, o.self.port = candidate gen self.type j := by
  intro fuel
  induction fuel with
  | zero => intro i self w o u h; simp [randomlyAllocatePortLoop] at h
  | succ n ih =>
    intro i self w o u h hok
    unfold randomlyAllocatePortLoop at h
    have hp := constructSocket_port k b
      { self with port := if self.type = SocketType.Wifi then wifiRand (gen i) else btRand (gen i) } w
    dsimp only at h hp
    split at h
    · rename_i u1 s2 w2 heq
      rw [heq] at hp
      cases h
      exact ⟨hp.2, i, hp.1⟩
    · rename_i m s2 w2 heq
      rw [heq] at hp
      have := ih (i + 1) s2 w2 o u h hok
      dsimp only at hp
      rw [hp.2] at this
      exact this
    · rename_i o1 hnok hnb
      cases h
      exact ⟨hp.2, i, hp.1⟩


/-- C1: for every transport kind, every explicit port `p > 0` and every backlog
size, when construction succeeds `getPort()` of the endpoint is `p`. -/
theorem getPort_of_explicit_port (k : Kernel) (gen : Nat → Nat) (fuel : Nat) (type : SocketType)
    (p backlog : Nat) (w w1 : World) (s : ServerSocket) (hp : 0 < p)
    (h : ServerSocket.construct k gen fuel type p backlog w = some (Result.ok s, w1)) :
    getPort s = p := by
  unfold ServerSocket.construct at h
  have hp0 : p ≠ 0 := by omega
  have hc := constructSocket_port k backlog
    { port := p, type := type, socketDescriptor := 0, serverAddress := ⟨0, 0, 0⟩,
      socketSize := 0 } w
  simp only [if_neg hp0] at h
  split at h
  · simp at h
  · rename_i u s1 w2 heq
    simp only [Option.some.injEq] at heq h
    rw [heq] at hc
    simp only [Prod.mk.injEq, Result.ok.injEq] at h
    rw [← h.1]
    exact hc.1
  · simp at h

/-- Instance of the statement on C1: Wifi, explicit port 8080, every primitive succeeding. -/
theorem getPort_of_explicit_port_witness :
    0 < 8080 ∧
      ServerSocket.construct Kernel.healthy (fun _ => 0) 0 SocketType.Wifi 8080 5 World.initial
        = some (Result.ok ⟨8080, SocketType.Wifi, 3, ⟨2, 36895, 0⟩, 16⟩,
            ⟨[Call.listen 3 5, Call.bind 3 (SockAddr.inet ⟨2, 36895, 0⟩) 16, Call.socket 2 1 0],
              [3], 0, []⟩) ∧
      getPort ⟨8080, SocketType.Wifi, 3, ⟨2, 36895, 0⟩, 16⟩ = 8080 :=
  ⟨by decide, by rfl,
    getPort_of_explicit_port Kernel.healthy (fun _ => 0) 0 SocketType.Wifi 8080 5 World.initial _ _
      (by decide) (by rfl)⟩

/-! ## The allocation loop -/

/-- An iteration whose attempt raises `BindingException` is followed by the next
iteration, on the next candidate, in the object and world the attempt left. -/
theorem randomlyAllocatePortLoop_binding (k : Kernel) (gen : Nat → Nat) (b fuel i : Nat)
    (self : ServerSocket) (w : World)
    (h : (attempt k gen b i self w).result.isBinding = true) :
    randomlyAllocatePortLoop k gen b (fuel + 1) i self w =
      randomlyAllocatePortLoop k gen b fuel (i + 1) (attempt k gen b i self w).self
        (attempt k gen b i self w).world := by
  rw [randomlyAllocatePortLoop]
  unfold attempt candidate at h ⊢
  generalize constructSocket k b _ w = o at h ⊢
  rcases o with ⟨r, s, w2⟩
  cases r with
  | ok u => simp [Result.isBinding] at h
  | throw e => cases e <;> simp [Result.isBinding] at h ⊢

/-- An iteration whose attempt does not raise `BindingException` ends the loop
with the outcome of that attempt. -/
theorem randomlyAllocatePortLoop_other (k : Kernel) (gen : Nat → Nat) (b fuel i : Nat)
    (self : ServerSocket) (w : World)
    (h : (attempt k gen b i self w).result.isBinding = false) :
    randomlyAllocatePortLoop k gen b (fuel + 1) i self w = some (attempt k gen b i self w) := by
  rw [randomlyAllocatePortLoop]
  unfold attempt candidate at h ⊢
  generalize constructSocket k b _ w = o at h ⊢
  rcases o with ⟨r, s, w2⟩
  cases r with
  | ok u => rfl
  | throw e => cases e <;> simp [Result.isBinding] at h ⊢

/-- The loop, started at the candidate of index `i`, ends with the outcome of the
first attempt that does not raise `BindingException`. -/
theorem randomlyAllocatePortLoop_first (k : Kernel) (gen : Nat → Nat) (b : Nat) :
    ∀ (n fuel i : Nat) (self : ServerSocket) (w : World),
      (∀ j, j < n → (nthAttempt k gen b j i self w).result.isBinding = true) →
      (nthAttempt k gen b n i self w).result.isBinding = false → n < fuel →
        randomlyAllocatePortLoop k gen b fuel i self w = some (nthAttempt k gen b n i self w) := by
  intro n
  induction n with
  | zero =>
    intro fuel i self w _ hfirst hfuel
    obtain ⟨f, rfl⟩ : ∃ f, fuel = f + 1 := ⟨fuel - 1, by omega⟩
    exact randomlyAllocatePortLoop_other k gen b f i self w hfirst
  | succ n ih =>
    intro fuel i self w hearlier hfirst hfuel
    obtain ⟨f, rfl⟩ : ∃ f, fuel = f + 1 := ⟨fuel - 1, by omega⟩
    rw [randomlyAllocatePortLoop_binding k gen b f i self w (hearlier 0 (by omega))]
    exact ih f (i + 1) _ _ (fun j hj => hearlier (j + 1) (by omega)) hfirst (by omega)

/-- While every attempt raises `BindingException` the loop does not end. -/
theorem randomlyAllocatePortLoop_all_binding (k : Kernel) (gen : Nat → Nat) (b : Nat) :
    ∀ (fuel i : Nat) (self : ServerSocket) (w : World),
      (∀ j, j < fuel → (nthAttempt k gen b j i self w).result.isBinding = true) →
        randomlyAllocatePortLoop k gen b fuel i self w = none := by
  intro fuel
  induction fuel with
  | zero => intro i self w _; rfl
  | succ f ih =>
    intro i self w h
    rw [randomlyAllocatePortLoop_binding k gen b f i self w (h 0 (by omega))]
    exact ih (i + 1) _ _ (fun j hj => h (j + 1) (by omega))

/-- The attempt of index `n` is made on the candidate of index `i + n`, and the
transport kind is the one the loop started with. -/
theorem nthAttempt_port (k : Kernel) (gen : Nat → Nat) (b : Nat) :
    ∀ (n i : Nat) (self : ServerSocket) (w : World),
      (nthAttempt k gen b n i self w).self.port = candidate gen self.type (i + n) ∧
        (nthAttempt k gen b n i self w).self.type = self.type := by
  intro n
  induction n with
  | zero =>
    intro i self w
    exact constructSocket_port k b { self with port := candidate gen self.type i } w
  | succ n ih =>
    intro i self w
    have h := ih (i + 1) (attempt k gen b i self w).self (attempt k gen b i self w).world
    have ht : (attempt k gen b i self w).self.type = self.type :=
      (constructSocket_port k b { self with port := candidate gen self.type i } w).2
    rw [ht] at h
    have e : i + 1 + n = i + (n + 1) := by omega
    rw [e] at h
    exact h

/-- C3: when the attempts on the candidates of index below `n` all raise
`BindingException` and the attempt on the candidate of index `n` does not, the
allocation loop ends (given more than `n` iterations) with exactly the outcome of
`constructSocket` on the candidate of index `n`: the earlier candidates are
discarded and redrawn, a success carries candidate `n` as its port, any other
exception comes out as thrown, and no further candidate is tried. -/
theorem randomlyAllocatePort_first_non_binding (k : Kernel) (gen : Nat → Nat) (backlog : Nat)
    (self : ServerSocket) (w : World) (n fuel : Nat)
    (hearlier : ∀ j, j < n → (nthAttempt k gen backlog j 0 self w).result.isBinding = true)
    (hfirst : (nthAttempt k gen backlog n 0 self w).result.isBinding = false)
    (hfuel : n < fuel) :
    randomlyAllocatePort k gen fuel backlog self w = some (nthAttempt k gen backlog n 0 self w) ∧
      (nthAttempt k gen backlog n 0 self w).self.port = candidate gen self.type n := by
  refine ⟨randomlyAllocatePortLoop_first k gen backlog n fuel 0 self w hearlier hfirst hfuel, ?_⟩
  have h := (nthAttempt_port k gen backlog n 0 self w).1
  rw [Nat.zero_add] at h
  exact h

/-- Instance of the statement on C3: the first two attempts raise `BindingException`,
the third succeeds. -/
theorem randomlyAllocatePort_first_non_binding_witness :
    (randomlyAllocatePort (Kernel.busy 2) (fun i => i) 5 5 ⟨0, SocketType.Wifi, 0, ⟨0, 0, 0⟩, 0⟩
        World.initial
      = some (nthAttempt (Kernel.busy 2) (fun i => i) 5 2 0 ⟨0, SocketType.Wifi, 0, ⟨0, 0, 0⟩, 0⟩
          World.initial)) ∧
      (nthAttempt (Kernel.busy 2) (fun i => i) 5 2 0 ⟨0, SocketType.Wifi, 0, ⟨0, 0, 0⟩, 0⟩
          World.initial).self.port = candidate (fun i => i) SocketType.Wifi 2 :=
  randomlyAllocatePort_first_non_binding (Kernel.busy 2) (fun i => i) 5
    ⟨0, SocketType.Wifi, 0, ⟨0, 0, 0⟩, 0⟩ World.initial 2 5
    (by intro j hj; interval_cases j <;> rfl) (by rfl) (by decide)


/-! ## Accepting a connection -/

/-- C5: with a timeout above zero, when the readiness poll returns `0` `accept`
throws `TimeoutException`, and when the poll returns `-1` `accept` throws
`SocketException`; in both cases the poll is the only primitive issued (the
native accept primitive is not invoked) and no connection is returned. -/
theorem accept_poll_failure (k : Kernel) (timeout : Nat) (self : ServerSocket) (w : World)
    (ht : 0 < timeout) :
    (k.ret w.calls (pollRequest timeout self) = 0 →
        (accept k timeout self w).result = Result.throw (Exception.TimeoutException
          ("No applicable connections could be accepted during the time period specified "
            ++ toString timeout ++ " microseconds.")) ∧
        (accept k timeout self w).world.calls = pollRequest timeout self :: w.calls ∧
        ∀ fd len, Call.accept fd len ≠ pollRequest timeout self) ∧
      (k.ret w.calls (pollRequest timeout self) = -1 →
        (accept k timeout self w).result = Result.throw (Exception.SocketException
          "Failed to poll as socket is no longer valid.") ∧
        (accept k timeout self w).world.calls = pollRequest timeout self :: w.calls ∧
        ∀ fd len, Call.accept fd len ≠ pollRequest timeout self) := by
  have ht0 : timeout ≠ 0 := by omega
  constructor
  · intro h
    unfold pollRequest at h
    simp [accept, sys, ht0, h, pollRequest, acceptRequest]
  · intro h
    unfold pollRequest at h
    simp [accept, sys, ht0, h, pollRequest, acceptRequest]

/-- Instance of the statement on C5: a poll returning `0`, and a poll returning `-1`. -/
theorem accept_poll_failure_witness :
    (accept (Kernel.fixed 0 0 0 7 0 0) 100000 ⟨8080, SocketType.Wifi, 3, ⟨2, 36895, 0⟩, 16⟩
        World.initial).result = Result.throw (Exception.TimeoutException
          ("No applicable connections could be accepted during the time period specified "
            ++ toString 100000 ++ " microseconds.")) ∧
      (accept (Kernel.fixed 0 0 (-1) 7 0 9) 100000 ⟨8080, SocketType.Wifi, 3, ⟨2, 36895, 0⟩, 16⟩
        World.initial).result = Result.throw (Exception.SocketException
          "Failed to poll as socket is no longer valid.") :=
  ⟨((accept_poll_failure (Kernel.fixed 0 0 0 7 0 0) 100000
      ⟨8080, SocketType.Wifi, 3, ⟨2, 36895, 0⟩, 16⟩ World.initial (by decide)).1 (by rfl)).1,
   ((accept_poll_failure (Kernel.fixed 0 0 (-1) 7 0 9) 100000
      ⟨8080, SocketType.Wifi, 3, ⟨2, 36895, 0⟩, 16⟩ World.initial (by decide)).2 (by rfl)).1⟩


/-- The value `accept` returns once the native accept primitive has been reached
and has succeeded. -/
theorem accept_result (k : Kernel) (timeout : Nat) (self : ServerSocket) (w : World)
    (hpoll : timeout = 0 ∨ (k.ret w.calls (pollRequest timeout self) ≠ -1 ∧
      k.ret w.calls (pollRequest timeout self) ≠ 0))
    (hacc : k.ret (pastAtAccept timeout self w) (acceptRequest self) ≠ -1) :
    (accept k timeout self w).result = Result.ok
      ⟨k.ret (pastAtAccept timeout self w) (acceptRequest self), self.type, SocketProtocol.TCP,
        if k.ret (acceptRequest self :: pastAtAccept timeout self w)
            (lookupRequest (k.ret (pastAtAccept timeout self w) (acceptRequest self))) = 0
        then k.inet_ntoa (k.peer (acceptRequest self :: pastAtAccept timeout self w)
            (lookupRequest (k.ret (pastAtAccept timeout self w) (acceptRequest self)))).sin_addr
        else "",
        if k.ret (acceptRequest self :: pastAtAccept timeout self w)
            (lookupRequest (k.ret (pastAtAccept timeout self w) (acceptRequest self))) = 0
        then htons (k.peer (acceptRequest self :: pastAtAccept timeout self w)
            (lookupRequest (k.ret (pastAtAccept timeout self w) (acceptRequest self)))).sin_port
        else 0⟩ := by
  unfold pastAtAccept acceptRequest lookupRequest pollRequest at *
  by_cases h0 : timeout = 0
  · subst h0
    simp only [if_true] at hacc ⊢
    simp only [accept, sys, ne_eq, not_true_eq_false, if_false, hacc]
    split_ifs <;> rfl
  · rcases hpoll with h | ⟨h1, h2⟩
    · exact absurd h h0
    · simp only [if_neg h0] at hacc ⊢
      simp only [accept, sys, ne_eq, h0, not_false_eq_true, if_true, h1, h2, if_false, hacc]
      split_ifs <;> rfl

/-- C6: when the native accept primitive is reached (no timeout, or a poll that
reports readiness) and succeeds, `accept` returns a connection carrying the
accepted handle, the transport kind of the endpoint and `TCP`, whether or not
the peer lookup succeeds; when the lookup fails the host is the empty string
and the port is `0`, and nothing is thrown. -/
theorem accept_returns_connection (k : Kernel) (timeout : Nat) (self : ServerSocket) (w : World)
    (hpoll : timeout = 0 ∨ (k.ret w.calls (pollRequest timeout self) ≠ -1 ∧
      k.ret w.calls (pollRequest timeout self) ≠ 0))
    (hacc : k.ret (pastAtAccept timeout self w) (acceptRequest self) ≠ -1) :
    ∃ host port,
      (accept k timeout self w).result = Result.ok
        ⟨k.ret (pastAtAccept timeout self w) (acceptRequest self), self.type,
          SocketProtocol.TCP, host, port⟩ ∧
      (k.ret (acceptRequest self :: pastAtAccept timeout self w)
          (lookupRequest (k.ret (pastAtAccept timeout self w) (acceptRequest self))) ≠ 0 →
        host = "" ∧ port = 0) := by
  refine ⟨_, _, accept_result k timeout self w hpoll hacc, ?_⟩
  intro h
  simp [h]

/-- Instance of the statement on C6: no timeout, the native accept primitive returns
handle `7`, the peer lookup fails. -/
theorem accept_returns_connection_witness :
    ∃ host port,
      (accept (Kernel.fixed 0 0 1 7 (-1) 0) 0 ⟨8080, SocketType.Wifi, 3, ⟨2, 36895, 0⟩, 16⟩
          World.initial).result = Result.ok
        ⟨(Kernel.fixed 0 0 1 7 (-1) 0).ret
            (pastAtAccept 0 ⟨8080, SocketType.Wifi, 3, ⟨2, 36895, 0⟩, 16⟩ World.initial)
            (acceptRequest ⟨8080, SocketType.Wifi, 3, ⟨2, 36895, 0⟩, 16⟩),
          (⟨8080, SocketType.Wifi, 3, ⟨2, 36895, 0⟩, 16⟩ : ServerSocket).type,
          SocketProtocol.TCP, host, port⟩ ∧
      ((Kernel.fixed 0 0 1 7 (-1) 0).ret
          (acceptRequest ⟨8080, SocketType.Wifi, 3, ⟨2, 36895, 0⟩, 16⟩ ::
            pastAtAccept 0 ⟨8080, SocketType.Wifi, 3, ⟨2, 36895, 0⟩, 16⟩ World.initial)
          (lookupRequest ((Kernel.fixed 0 0 1 7 (-1) 0).ret
            (pastAtAccept 0 ⟨8080, SocketType.Wifi, 3, ⟨2, 36895, 0⟩, 16⟩ World.initial)
            (acceptRequest ⟨8080, SocketType.Wifi, 3, ⟨2, 36895, 0⟩, 16⟩))) ≠ 0 →
        host = "" ∧ port = 0) :=
  accept_returns_connection (Kernel.fixed 0 0 1 7 (-1) 0) 0
    ⟨8080, SocketType.Wifi, 3, ⟨2, 36895, 0⟩, 16⟩ World.initial (Or.inl rfl) (by decide)


/-! ## Failure kinds of a construction with an explicit port -/

/-- The outcome of `constructSocket`, case by case on the values the primitives return. -/
theorem constructSocket_cases (k : Kernel) (backlog : Nat) (self : ServerSocket) (w : World) :
    (socketReturn k self.type w = -1 →
        (constructSocket k backlog self w).result.isSocketException = true) ∧
      (socketReturn k self.type w ≠ -1 → bindReturn k self.type self.port w = -1 →
        (constructSocket k backlog self w).result.isBinding = true ∧
        (constructSocket k backlog self w).world.calls =
          bindRequest self.type self.port (socketReturn k self.type w) ::
            socketRequest self.type :: w.calls ∧
        (constructSocket k backlog self w).world.handles =
          socketReturn k self.type w :: w.handles) ∧
      (socketReturn k self.type w ≠ -1 → bindReturn k self.type self.port w ≠ -1 →
        listenReturn k self.type self.port backlog w = -1 →
        (constructSocket k backlog self w).result.isSocketException = true ∧
        (constructSocket k backlog self w).world.calls =
          Call.close (socketReturn k self.type w) ::
            listenRequest backlog (socketReturn k self.type w) ::
            bindRequest self.type self.port (socketReturn k self.type w) ::
            socketRequest self.type :: w.calls ∧
        (constructSocket k backlog self w).world.handles =
          (socketReturn k self.type w :: w.handles).erase (socketReturn k self.type w)) ∧
      (socketReturn k self.type w ≠ -1 → bindReturn k self.type self.port w ≠ -1 →
        listenReturn k self.type self.port backlog w ≠ -1 →
        (constructSocket k backlog self w).world.calls =
          listenRequest backlog (socketReturn k self.type w) ::
            bindRequest self.type self.port (socketReturn k self.type w) ::
            socketRequest self.type :: w.calls ∧
        (constructSocket k backlog self w).world.handles =
          socketReturn k self.type w :: w.handles ∧
        (constructSocket k backlog self w).self.socketDescriptor = socketReturn k self.type w ∧
        (self.type = SocketType.Wifi →
          (constructSocket k backlog self w).result = Result.ok () ∧
          (constructSocket k backlog self w).self.serverAddress =
            ⟨AF_INET, htons self.port, htons INADDR_ANY⟩) ∧
        (self.type = SocketType.Bluetooth →
          (constructSocket k backlog self w).result =
            Result.throw (Exception.SocketException "Still in progress."))) := by
  rcases self with ⟨port, type, fd, addr, size⟩
  cases type
  · simp only [socketReturn, bindReturn, listenReturn, socketRequest, bindRequest, listenRequest,
      constructSocket, constructWifiSocket, close, sys, if_true]
    refine ⟨?_, ?_, ?_, ?_⟩
    · intro h1; simp [h1, Result.isSocketException]
    · intro h1 h2; simp [h1, h2, Result.isBinding]
    · intro h1 h2 h3; simp [h1, h2, h3, Result.isSocketException]
    · intro h1 h2 h3; simp [h1, h2, h3]
  · simp only [socketReturn, bindReturn, listenReturn, socketRequest, bindRequest, listenRequest,
      constructSocket, constructBluetoothSocket, setDiscoverable, close, sys, reduceCtorEq, if_false]
    refine ⟨?_, ?_, ?_, ?_⟩
    · intro h1; simp [h1, Result.isSocketException]
    · intro h1 h2; simp [h1, h2, Result.isBinding]
    · intro h1 h2 h3; simp [h1, h2, h3, Result.isSocketException]
    · intro h1 h2 h3; simp [h1, h2, h3]


/-- A construction with an explicit port is one call of `constructSocket` on the
fresh object; its result is that of the call, with the object in place of the
unit value. -/
theorem construct_explicit (k : Kernel) (gen : Nat → Nat) (fuel : Nat) (type : SocketType)
    (port backlog : Nat) (w : World) (hp : port ≠ 0) :
    ∃ r, ServerSocket.construct k gen fuel type port backlog w =
        some (r, (constructSocket k backlog (ServerSocket.fresh type port) w).world) ∧
      r.isBinding = (constructSocket k backlog (ServerSocket.fresh type port) w).result.isBinding ∧
      r.isSocketException =
        (constructSocket k backlog (ServerSocket.fresh type port) w).result.isSocketException ∧
      (∀ e, r = Result.throw e ↔
        (constructSocket k backlog (ServerSocket.fresh type port) w).result = Result.throw e) ∧
      (∀ s, r = Result.ok s ↔
        ((constructSocket k backlog (ServerSocket.fresh type port) w).result = Result.ok () ∧
          s = (constructSocket k backlog (ServerSocket.fresh type port) w).self)) := by
  unfold ServerSocket.construct ServerSocket.fresh
  simp only [if_neg hp]
  generalize constructSocket k backlog _ w = o
  rcases o with ⟨r, s, w2⟩
  cases r with
  | ok u =>
    refine ⟨Result.ok s, rfl, rfl, rfl, ?_, ?_⟩
    · intro e; simp
    · intro s1; simp [eq_comm]
  | throw e =>
    refine ⟨Result.throw e, rfl, ?_, ?_, ?_, ?_⟩
    · cases e <;> rfl
    · cases e <;> rfl
    · intro e1; simp
    · intro s1; simp

/-- C4, amended: in a construction with an explicit port the failure kind is
`BindingException` exactly when the handle was created and `bind` returned `-1`,
whatever `errno` says; a failure of handle creation and a failure of `listen`
each give `SocketException`. -/
theorem construct_explicit_failure_kind (k : Kernel) (gen : Nat → Nat) (fuel : Nat)
    (type : SocketType) (port backlog : Nat) (w : World) (hp : port ≠ 0) :
    ∃ r w1, ServerSocket.construct k gen fuel type port backlog w = some (r, w1) ∧
      (r.isBinding = true ↔ (socketReturn k type w ≠ -1 ∧ bindReturn k type port w = -1)) ∧
      (socketReturn k type w = -1 → r.isSocketException = true) ∧
      (socketReturn k type w ≠ -1 → bindReturn k type port w ≠ -1 →
        listenReturn k type port backlog w = -1 → r.isSocketException = true) := by
  obtain ⟨r, hr, hb, hs, -, hok⟩ := construct_explicit k gen fuel type port backlog w hp
  obtain ⟨c1, c2, c3, c4⟩ := constructSocket_cases k backlog (ServerSocket.fresh type port) w
  simp only [ServerSocket.fresh] at c1 c2 c3 c4
  simp only [ServerSocket.fresh] at hb hs hok
  refine ⟨r, _, hr, ?_, ?_, ?_⟩
  · constructor
    · intro h
      rw [hb] at h
      by_cases h1 : socketReturn k type w = -1
      · have := c1 h1
        generalize (constructSocket k backlog _ w).result = x at h this
        rcases x with _ | e
        · simp [Result.isBinding] at h
        · cases e <;> simp [Result.isBinding, Result.isSocketException] at h this
      · refine ⟨h1, ?_⟩
        by_contra h2
        by_cases h3 : listenReturn k type port backlog w = -1
        · have := (c3 h1 h2 h3).1
          generalize (constructSocket k backlog _ w).result = x at h this
          rcases x with _ | e
          · simp [Result.isBinding] at h
          · cases e <;> simp [Result.isBinding, Result.isSocketException] at h this
        · obtain ⟨-, -, -, hw, hbt⟩ := c4 h1 h2 h3
          cases type
          · rw [(hw rfl).1] at h
            simp [Result.isBinding] at h
          · rw [hbt rfl] at h
            simp [Result.isBinding] at h
    · rintro ⟨h1, h2⟩
      rw [hb]
      exact (c2 h1 h2).1
  · intro h1
    rw [hs]
    exact c1 h1
  · intro h1 h2 h3
    rw [hs]
    exact (c3 h1 h2 h3).1

/-- Instance of the amended statement on C4: Wifi, explicit port 8080, `bind` failing. -/
theorem construct_explicit_failure_kind_witness :
    ∃ r w1, ServerSocket.construct (Kernel.fixed (-1) 0 1 7 0 EADDRINUSE) (fun _ => 0) 0
        SocketType.Wifi 8080 5 World.initial = some (r, w1) ∧
      (r.isBinding = true ↔
        (socketReturn (Kernel.fixed (-1) 0 1 7 0 EADDRINUSE) SocketType.Wifi World.initial ≠ -1 ∧
          bindReturn (Kernel.fixed (-1) 0 1 7 0 EADDRINUSE) SocketType.Wifi 8080 World.initial
            = -1)) ∧
      (socketReturn (Kernel.fixed (-1) 0 1 7 0 EADDRINUSE) SocketType.Wifi World.initial = -1 →
        r.isSocketException = true) ∧
      (socketReturn (Kernel.fixed (-1) 0 1 7 0 EADDRINUSE) SocketType.Wifi World.initial ≠ -1 →
        bindReturn (Kernel.fixed (-1) 0 1 7 0 EADDRINUSE) SocketType.Wifi 8080 World.initial ≠ -1 →
        listenReturn (Kernel.fixed (-1) 0 1 7 0 EADDRINUSE) SocketType.Wifi 8080 5 World.initial
          = -1 → r.isSocketException = true) :=
  construct_explicit_failure_kind (Kernel.fixed (-1) 0 1 7 0 EADDRINUSE) (fun _ => 0) 0
    SocketType.Wifi 8080 5 World.initial (by decide)

/-- C4, as stated, fails: `bind` fails with `EACCES` (a privilege error, not an
address in use) on the explicit Wifi port 80, and the construction throws
`BindingException`, not `SocketException`. -/
theorem binding_exception_on_privilege_error :
    ServerSocket.construct (Kernel.fixed (-1) 0 1 7 0 EACCES) (fun _ => 0) 0 SocketType.Wifi 80 5
        World.initial
      = some (Result.throw (Exception.BindingException
          "Error binding connection, the port 80 is already being used: errno 13"),
          ⟨[Call.bind 3 (SockAddr.inet ⟨2, 20480, 0⟩) 16, Call.socket 2 1 0], [3], 13, []⟩) ∧
      bindReturn (Kernel.fixed (-1) 0 1 7 0 EACCES) SocketType.Wifi 80 World.initial = -1 ∧
      bindErrno (Kernel.fixed (-1) 0 1 7 0 EACCES) SocketType.Wifi 80 World.initial = EACCES ∧
      EACCES ≠ EADDRINUSE := by
  decide

/-! ## Closing -/

/-- C7, amended: `close()` never throws, leaves the stored handle as it is and
issues the close primitive on it at every call: the first call releases the
handle, a second call issues the close primitive again on the same value. -/
theorem close_twice (k : Kernel) (self : ServerSocket) (w : World) :
    (close k self w).result = Result.ok () ∧
      (close k self w).self = self ∧
      (close k self w).world.calls = Call.close self.socketDescriptor :: w.calls ∧
      (close k self w).world.handles = w.handles.erase self.socketDescriptor ∧
      (close k (close k self w).self (close k self w).world).result = Result.ok () ∧
      (close k (close k self w).self (close k self w).world).self = self ∧
      (close k (close k self w).self (close k self w).world).world.calls =
        Call.close self.socketDescriptor :: Call.close self.socketDescriptor :: w.calls := by
  simp [close, sys]

/-- C7, as stated, fails: on the endpoint constructed on Wifi port 8080 (handle
`3`) the first `close()` leaves the stored handle at `3`, and the second
`close()` issues the close primitive on `3` again. -/
theorem second_close_reissued :
    ServerSocket.construct Kernel.healthy (fun _ => 0) 0 SocketType.Wifi 8080 5 World.initial
        = some (Result.ok ⟨8080, SocketType.Wifi, 3, ⟨2, 36895, 0⟩, 16⟩,
            ⟨[Call.listen 3 5, Call.bind 3 (SockAddr.inet ⟨2, 36895, 0⟩) 16, Call.socket 2 1 0],
              [3], 0, []⟩) ∧
      (close Kernel.healthy ⟨8080, SocketType.Wifi, 3, ⟨2, 36895, 0⟩, 16⟩
        ⟨[Call.listen 3 5, Call.bind 3 (SockAddr.inet ⟨2, 36895, 0⟩) 16, Call.socket 2 1 0],
          [3], 0, []⟩).self.socketDescriptor = 3 ∧
      (close Kernel.healthy
        (close Kernel.healthy ⟨8080, SocketType.Wifi, 3, ⟨2, 36895, 0⟩, 16⟩
          ⟨[Call.listen 3 5, Call.bind 3 (SockAddr.inet ⟨2, 36895, 0⟩) 16, Call.socket 2 1 0],
            [3], 0, []⟩).self
        (close Kernel.healthy ⟨8080, SocketType.Wifi, 3, ⟨2, 36895, 0⟩, 16⟩
          ⟨[Call.listen 3 5, Call.bind 3 (SockAddr.inet ⟨2, 36895, 0⟩) 16, Call.socket 2 1 0],
            [3], 0, []⟩).world).world.calls
        = [Call.close 3, Call.close 3, Call.listen 3 5,
            Call.bind 3 (SockAddr.inet ⟨2, 36895, 0⟩) 16, Call.socket 2 1 0] := by
  decide

/-! ## The radio transport -/

/-- On the Bluetooth transport no construction succeeds, with an explicit port or
with an allocated one. -/
theorem construct_bluetooth_never_ok (k : Kernel) (gen : Nat → Nat) (fuel port backlog : Nat)
    (w w1 : World) (s : ServerSocket) :
    ServerSocket.construct k gen fuel SocketType.Bluetooth port backlog w
      ≠ some (Result.ok s, w1) := by
  intro h
  have key : ∀ (fuel i : Nat) (self : ServerSocket) (w : World) (o : Outcome Unit) (u : Unit),
      self.type = SocketType.Bluetooth →
      randomlyAllocatePortLoop k gen backlog fuel i self w = some o → o.result ≠ Result.ok u := by
    intro fuel
    induction fuel with
    | zero => intro i self w o u _ h; simp [randomlyAllocatePortLoop] at h
    | succ n ih =>
      intro i self w o u hty h
      rw [randomlyAllocatePortLoop] at h
      have hn := constructSocket_bluetooth_not_ok k backlog
        { self with port := if self.type = SocketType.Wifi then wifiRand (gen i)
                            else btRand (gen i) } w hty
      have hp := constructSocket_port k backlog
        { self with port := if self.type = SocketType.Wifi then wifiRand (gen i)
                            else btRand (gen i) } w
      split at h
      · rename_i u1 s2 w2 heq
        rw [heq] at hn
        exact absurd rfl (hn u1)
      · rename_i m s2 w2 heq
        rw [heq] at hp
        exact ih (i + 1) s2 w2 o u (hp.2.trans hty) h
      · rename_i o1 hnok hnb
        cases h
        exact hn u
  unfold ServerSocket.construct randomlyAllocatePort at h
  dsimp only at h
  split at h
  · simp at h
  · rename_i u s1 w2 heq
    split_ifs at heq with h0
    · exact key fuel 0 _ w _ u rfl heq rfl
    · simp only [Option.some.injEq] at heq
      have := constructSocket_bluetooth_not_ok k backlog
        { port := port, type := SocketType.Bluetooth, socketDescriptor := 0,
          serverAddress := ⟨0, 0, 0⟩, socketSize := 0 } w rfl u
      rw [heq] at this
      exact this rfl
  · simp at h

/-- C8, the code at the failing input: Bluetooth, explicit port 3, with `socket`,
`bind` and `listen` all succeeding; construction throws the `SocketException` of
`setDiscoverable`, and the handle `3` stays open. -/
theorem construct_bluetooth_throws :
    ServerSocket.construct Kernel.healthy (fun _ => 0) 0 SocketType.Bluetooth 3 5 World.initial
      = some (Result.throw (Exception.SocketException "Still in progress."),
          ⟨[Call.listen 3 5, Call.bind 3 (SockAddr.rc ⟨31, 0, 3⟩) 10, Call.socket 31 1 3],
            [3], 0, []⟩) ∧
      socketReturn Kernel.healthy SocketType.Bluetooth World.initial = 3 ∧
      bindReturn Kernel.healthy SocketType.Bluetooth 3 World.initial = 0 ∧
      listenReturn Kernel.healthy SocketType.Bluetooth 3 5 World.initial = 0 := by
  decide

/-! ## Handles left open by a failed construction -/

/-- C10, the code at the failing input: `bind` fails on the explicit Wifi port
8080; construction throws `BindingException`, no close primitive is issued and
handle `3` stays open.  In an allocation whose first two candidates are
discarded, the handles `3` and `4` of the discarded attempts stay open beside
handle `5` of the endpoint. -/
theorem construct_bind_failure_leaks :
    ServerSocket.construct (Kernel.fixed (-1) 0 1 7 0 EADDRINUSE) (fun _ => 0) 0
        SocketType.Wifi 8080 5 World.initial
      = some (Result.throw (Exception.BindingException
          "Error binding connection, the port 8080 is already being used: errno 98"),
          ⟨[Call.bind 3 (SockAddr.inet ⟨2, 36895, 0⟩) 16, Call.socket 2 1 0], [3], 98, []⟩) ∧
      ServerSocket.construct (Kernel.busy 2) (fun i => i) 5 SocketType.Wifi 0 5 World.initial
      = some (Result.ok ⟨49154, SocketType.Wifi, 5, ⟨2, 704, 0⟩, 16⟩,
          ⟨[Call.listen 5 5, Call.bind 5 (SockAddr.inet ⟨2, 704, 0⟩) 16, Call.socket 2 1 0,
            Call.bind 4 (SockAddr.inet ⟨2, 448, 0⟩) 16, Call.socket 2 1 0,
            Call.bind 3 (SockAddr.inet ⟨2, 192, 0⟩) 16, Call.socket 2 1 0],
            [5, 4, 3], 98, []⟩) := by
  decide


/-! ## The port handed to `bind` -/

/-- The kernel reads out of `htons p` the port `p` reduced modulo `2^16`. -/
theorem ntohs_htons (p : Nat) : ntohs (htons p) = p % 65536 := by
  unfold ntohs htons
  have hv : p % 65536 < 65536 := Nat.mod_lt _ (by decide)
  generalize p % 65536 = v at hv ⊢
  have hlo : v % 256 < 256 := Nat.mod_lt _ (by decide)
  have hhi : v / 256 < 256 := by omega
  have hsplit : 256 * (v / 256) + v % 256 = v := Nat.div_add_mod v 256
  generalize v % 256 = lo at hlo hsplit ⊢
  generalize v / 256 = hi at hhi hsplit ⊢
  have h1 : (lo * 256 + hi) % 65536 = lo * 256 + hi := Nat.mod_eq_of_lt (by omega)
  rw [h1]
  have h2 : (lo * 256 + hi) % 256 = hi := by omega
  have h3 : (lo * 256 + hi) / 256 = lo := by omega
  rw [h2, h3]
  omega

/-- A successful `constructSocket` is a Wifi one whose last two primitives are
the `bind` on the stored address and the `listen`, the stored `sin_port` being
`htons` of the stored port. -/
theorem constructSocket_ok (k : Kernel) (backlog : Nat) (self : ServerSocket) (w : World)
    (u : Unit) (h : (constructSocket k backlog self w).result = Result.ok u) :
    self.type = SocketType.Wifi ∧
      (constructSocket k backlog self w).world.calls =
        Call.listen (constructSocket k backlog self w).self.socketDescriptor (toInt32 backlog) ::
          Call.bind (constructSocket k backlog self w).self.socketDescriptor
            (SockAddr.inet (constructSocket k backlog self w).self.serverAddress)
            sizeof_sockaddr_in :: socketRequest self.type :: w.calls ∧
      (constructSocket k backlog self w).self.serverAddress.sin_port
        = htons (constructSocket k backlog self w).self.port := by
  obtain ⟨c1, c2, c3, c4⟩ := constructSocket_cases k backlog self w
  have hp := (constructSocket_port k backlog self w).1
  have h1 : socketReturn k self.type w ≠ -1 := by
    intro e
    have := c1 e
    rw [h] at this
    simp [Result.isSocketException] at this
  have h2 : bindReturn k self.type self.port w ≠ -1 := by
    intro e
    have := (c2 h1 e).1
    rw [h] at this
    simp [Result.isBinding] at this
  have h3 : listenReturn k self.type self.port backlog w ≠ -1 := by
    intro e
    have := (c3 h1 h2 e).1
    rw [h] at this
    simp [Result.isSocketException] at this
  obtain ⟨hc, -, hfd, hw, hbt⟩ := c4 h1 h2 h3
  have hty : self.type = SocketType.Wifi := by
    cases hx : self.type
    · rfl
    · have := hbt hx
      rw [h] at this
      simp at this
  refine ⟨hty, ?_, ?_⟩
  · rw [hc, hfd, (hw hty).2]
    simp [listenRequest, bindRequest, hty]
  · rw [(hw hty).2, hp]

/-- When the allocation loop ends without an exception, its last two primitives
are the `bind` on the stored address and the `listen`, the stored `sin_port`
being `htons` of the stored port. -/
theorem randomlyAllocatePortLoop_ok_calls (k : Kernel) (gen : Nat → Nat) (b : Nat) :
    ∀ (fuel i : Nat) (self : ServerSocket) (w : World) (o : Outcome Unit) (u : Unit),
      randomlyAllocatePortLoop k gen b fuel i self w = some o → o.result = Result.ok u →
        self.type = SocketType.Wifi ∧
        (∃ rest, o.world.calls = Call.listen o.self.socketDescriptor (toInt32 b) ::
          Call.bind o.self.socketDescriptor (SockAddr.inet o.self.serverAddress)
            sizeof_sockaddr_in :: rest) ∧
        o.self.serverAddress.sin_port = htons o.self.port := by
  intro fuel
  induction fuel with
  | zero => intro i self w o u h; simp [randomlyAllocatePortLoop] at h
  | succ n ih =>
    intro i self w o u h hok
    by_cases hb : (attempt k gen b i self w).result.isBinding = true
    · rw [randomlyAllocatePortLoop_binding k gen b n i self w hb] at h
      have := ih (i + 1) _ _ o u h hok
      have ht : (attempt k gen b i self w).self.type = self.type :=
        (constructSocket_port k b { self with port := candidate gen self.type i } w).2
      rw [ht] at this
      exact this
    · rw [randomlyAllocatePortLoop_other k gen b n i self w (by simpa using hb)] at h
      cases h
      obtain ⟨hty, hc, hp⟩ := constructSocket_ok k b
        { self with port := candidate gen self.type i } w u hok
      exact ⟨hty, ⟨_, hc⟩, hp⟩

/-- When `socket` fails it is the only primitive `constructSocket` issues. -/
theorem constructSocket_socket_failure_calls (k : Kernel) (backlog : Nat) (self : ServerSocket)
    (w : World) (h : socketReturn k self.type w = -1) :
    (constructSocket k backlog self w).world.calls = socketRequest self.type :: w.calls := by
  rcases self with ⟨port, type, fd, addr, size⟩
  cases type
  · simp only [socketReturn, socketRequest, if_true] at h
    simp [constructSocket, constructWifiSocket, sys, socketRequest, h]
  · simp only [socketReturn, socketRequest, reduceCtorEq, if_false] at h
    simp [constructSocket, constructBluetoothSocket, sys, socketRequest, h]

/-- The port the kernel reads out of the address of the `bind` construction issues. -/
theorem boundPort_bindRequest (type : SocketType) (port : Nat) (fd fd1 : Int) (addr : SockAddr)
    (len : Nat) (h : Call.bind fd1 addr len = bindRequest type port fd) :
    (type = SocketType.Wifi → boundPort addr = port % 65536) ∧
      (type = SocketType.Bluetooth → boundPort addr = port % 256) := by
  cases type
  · simp only [bindRequest, if_true, Call.bind.injEq] at h
    rw [h.2.1]
    exact ⟨fun _ => ntohs_htons port, fun e => absurd e (by decide)⟩
  · simp only [bindRequest, reduceCtorEq, if_false, Call.bind.injEq] at h
    rw [h.2.1]
    exact ⟨fun e => absurd e (by decide), fun _ => rfl⟩

/-- The primitives one call of `constructSocket` issues: when the handle is
created a `bind` is among them, and every `bind` among them carries the stored
port reduced modulo `2^16` (Wifi) or modulo `2^8` (Bluetooth). -/
theorem constructSocket_binds (k : Kernel) (backlog : Nat) (self : ServerSocket) (w : World) :
    ∃ new, (constructSocket k backlog self w).world.calls = new ++ w.calls ∧
      (socketReturn k self.type w ≠ -1 → ∃ fd addr len, Call.bind fd addr len ∈ new) ∧
      ∀ fd addr len, Call.bind fd addr len ∈ new →
        (self.type = SocketType.Wifi → boundPort addr = self.port % 65536) ∧
        (self.type = SocketType.Bluetooth → boundPort addr = self.port % 256) := by
  obtain ⟨-, c2, c3, c4⟩ := constructSocket_cases k backlog self w
  have hs : ∀ c, c = socketRequest self.type → ∀ fd addr len, Call.bind fd addr len ≠ c := by
    intro c hc fd addr len e
    rw [hc] at e
    unfold socketRequest at e
    split_ifs at e
  have hl : ∀ fd addr len, Call.bind fd addr len
      ≠ listenRequest backlog (socketReturn k self.type w) := by
    intro fd addr len e
    simp [listenRequest] at e
  have hb : ∃ fd addr len, Call.bind fd addr len
      = bindRequest self.type self.port (socketReturn k self.type w) := by
    unfold bindRequest
    split_ifs
    · exact ⟨_, _, _, rfl⟩
    · exact ⟨_, _, _, rfl⟩
  by_cases h1 : socketReturn k self.type w = -1
  · refine ⟨[socketRequest self.type], ?_, fun h => absurd h1 h, ?_⟩
    · rw [constructSocket_socket_failure_calls k backlog self w h1]
      rfl
    · intro fd addr len hm
      simp only [List.mem_singleton] at hm
      exact absurd hm (hs _ rfl fd addr len)
  · by_cases h2 : bindReturn k self.type self.port w = -1
    · refine ⟨[bindRequest self.type self.port (socketReturn k self.type w),
        socketRequest self.type], ?_, fun _ => ?_, ?_⟩
      · rw [(c2 h1 h2).2.1]
        rfl
      · obtain ⟨fd, addr, len, e⟩ := hb
        exact ⟨fd, addr, len, by rw [e]; simp⟩
      · intro fd addr len hm
        simp only [List.mem_cons, List.mem_singleton, List.mem_nil_iff, or_false] at hm
        rcases hm with e | e
        · exact boundPort_bindRequest _ _ _ _ _ _ e
        · exact absurd e (hs _ rfl fd addr len)
    · by_cases h3 : listenReturn k self.type self.port backlog w = -1
      · refine ⟨[Call.close (socketReturn k self.type w),
          listenRequest backlog (socketReturn k self.type w),
          bindRequest self.type self.port (socketReturn k self.type w),
          socketRequest self.type], ?_, fun _ => ?_, ?_⟩
        · rw [(c3 h1 h2 h3).2.1]
          rfl
        · obtain ⟨fd, addr, len, e⟩ := hb
          exact ⟨fd, addr, len, by rw [e]; simp⟩
        · intro fd addr len hm
          simp only [List.mem_cons, List.mem_singleton, List.mem_nil_iff, or_false] at hm
          rcases hm with e | e | e | e
          · cases e
          · exact absurd e (hl fd addr len)
          · exact boundPort_bindRequest _ _ _ _ _ _ e
          · exact absurd e (hs _ rfl fd addr len)
      · refine ⟨[listenRequest backlog (socketReturn k self.type w),
          bindRequest self.type self.port (socketReturn k self.type w),
          socketRequest self.type], ?_, fun _ => ?_, ?_⟩
        · rw [(c4 h1 h2 h3).1]
          rfl
        · obtain ⟨fd, addr, len, e⟩ := hb
          exact ⟨fd, addr, len, by rw [e]; simp⟩
        · intro fd addr len hm
          simp only [List.mem_cons, List.mem_singleton, List.mem_nil_iff, or_false] at hm
          rcases hm with e | e | e
          · exact absurd e (hl fd addr len)
          · exact boundPort_bindRequest _ _ _ _ _ _ e
          · exact absurd e (hs _ rfl fd addr len)

/-- A construction with port argument `0` that ends is an allocation loop that
ends, in the same world; a returned endpoint is the object the loop left. -/
theorem construct_allocated (k : Kernel) (gen : Nat → Nat) (fuel : Nat) (type : SocketType)
    (backlog : Nat) (w w1 : World) (r : Result ServerSocket)
    (h : ServerSocket.construct k gen fuel type 0 backlog w = some (r, w1)) :
    ∃ o, randomlyAllocatePortLoop k gen backlog fuel 0 (ServerSocket.fresh type 0) w = some o ∧
      o.world = w1 ∧ ∀ s, r = Result.ok s → o.result = Result.ok () ∧ o.self = s := by
  unfold ServerSocket.construct randomlyAllocatePort at h
  simp only [if_true] at h
  unfold ServerSocket.fresh
  generalize randomlyAllocatePortLoop k gen backlog fuel 0 _ w = x at h ⊢
  rcases x with _ | ⟨res, s1, w2⟩
  · simp at h
  · cases res with
    | ok u =>
      simp only [Option.some.injEq, Prod.mk.injEq] at h
      refine ⟨_, rfl, h.2, ?_⟩
      intro s hs
      rw [hs] at h
      simp only [Result.ok.injEq] at h
      exact ⟨rfl, h.1⟩
    | throw e =>
      simp only [Option.some.injEq, Prod.mk.injEq] at h
      refine ⟨_, rfl, h.2, ?_⟩
      intro s hs
      rw [hs] at h
      simp at h

/-! ## The range of an allocated port -/

/-- C9, amended: when a construction ends with result `r`: if it succeeds it is a
Wifi one, the last `bind` issued carries the stored address, and the port the
kernel reads out of it is `getPort()` reduced modulo `2^16`, which is
`getPort()` itself, above `0` and at most `65535`, when the port argument is
below `65536`; and with an explicit port, successful or not, a `bind` is issued
as soon as the handle is created and every `bind` issued carries the port
argument reduced modulo `2^16` (Wifi, `sin_port`) or modulo `2^8` (Bluetooth,
`rc_channel`). -/
theorem bound_port_of_construction (k : Kernel) (gen : Nat → Nat) (fuel : Nat)
    (type : SocketType) (port backlog : Nat) (w w1 : World) (r : Result ServerSocket)
    (h : ServerSocket.construct k gen fuel type port backlog w = some (r, w1)) :
    (∀ s, r = Result.ok s →
        type = SocketType.Wifi ∧
        (∃ rest, w1.calls = Call.listen s.socketDescriptor (toInt32 backlog) ::
          Call.bind s.socketDescriptor (SockAddr.inet s.serverAddress) sizeof_sockaddr_in ::
            rest) ∧
        boundPort (SockAddr.inet s.serverAddress) = getPort s % 65536 ∧
        (port < 65536 → boundPort (SockAddr.inet s.serverAddress) = getPort s ∧
          0 < getPort s ∧ getPort s ≤ 65535)) ∧
      (port ≠ 0 →
        ∃ new, w1.calls = new ++ w.calls ∧
          (socketReturn k type w ≠ -1 → ∃ fd addr len, Call.bind fd addr len ∈ new) ∧
          ∀ fd addr len, Call.bind fd addr len ∈ new →
            (type = SocketType.Wifi → boundPort addr = port % 65536) ∧
            (type = SocketType.Bluetooth → boundPort addr = port % 256)) := by
  constructor
  · intro s hr
    subst hr
    have main : type = SocketType.Wifi ∧
        (∃ rest, w1.calls = Call.listen s.socketDescriptor (toInt32 backlog) ::
          Call.bind s.socketDescriptor (SockAddr.inet s.serverAddress) sizeof_sockaddr_in ::
            rest) ∧
        s.serverAddress.sin_port = htons s.port ∧
        ((port ≠ 0 ∧ s.port = port) ∨ (port = 0 ∧ ∃ j, s.port = candidate gen type j)) := by
      by_cases hp : port = 0
      · subst hp
        obtain ⟨o, ho, hw, hs⟩ := construct_allocated k gen fuel type backlog w w1 _ h
        obtain ⟨hok, hself⟩ := hs s rfl
        obtain ⟨hty, hc, hsp⟩ :=
          randomlyAllocatePortLoop_ok_calls k gen backlog fuel 0 _ w o () ho hok
        obtain ⟨-, j, hj⟩ := randomlyAllocatePortLoop_ok k gen backlog fuel 0 _ w o () ho hok
        rw [hself] at hc hsp hj
        rw [hw] at hc
        exact ⟨hty, hc, hsp, Or.inr ⟨rfl, j, hj⟩⟩
      · obtain ⟨r1, hr, -, -, -, hok⟩ := construct_explicit k gen fuel type port backlog w hp
        rw [hr] at h
        simp only [Option.some.injEq, Prod.mk.injEq] at h
        obtain ⟨hres, hself⟩ := (hok s).1 h.1
        obtain ⟨hty, hc, hs⟩ :=
          constructSocket_ok k backlog (ServerSocket.fresh type port) w () hres
        have hport := (constructSocket_port k backlog (ServerSocket.fresh type port) w).1
        rw [← hself] at hc hs hport
        rw [h.2] at hc
        exact ⟨hty, ⟨_, hc⟩, hs, Or.inl ⟨hp, hport⟩⟩
    obtain ⟨hty, hc, hs, hcase⟩ := main
    have hb : boundPort (SockAddr.inet s.serverAddress) = getPort s % 65536 := by
      simp only [boundPort, getPort, hs]
      exact ntohs_htons s.port
    refine ⟨hty, hc, hb, ?_⟩
    intro hlt
    rw [hb]
    unfold getPort
    rcases hcase with ⟨hp, he⟩ | ⟨hp, j, hj⟩
    · rw [he]
      omega
    · subst hty
      have := uniform_int_distribution_range 49152 65535 (gen j) (by decide)
      have e : s.port = uniform_int_distribution 49152 65535 (gen j) := hj
      omega
  · intro hp
    obtain ⟨r1, hr, -⟩ := construct_explicit k gen fuel type port backlog w hp
    rw [hr] at h
    simp only [Option.some.injEq, Prod.mk.injEq] at h
    obtain ⟨new, hc, hex, hb⟩ := constructSocket_binds k backlog (ServerSocket.fresh type port) w
    rw [h.2] at hc
    exact ⟨new, hc, hex, hb⟩

/-- Instances of the amended statement on C9.  Wifi, explicit port 8080: the
construction succeeds and `bind` receives 8080.  Bluetooth, explicit port 300:
`bind` receives channel 44. -/
theorem bound_port_of_construction_witness :
    (boundPort (SockAddr.inet ⟨2, 36895, 0⟩)
        = getPort ⟨8080, SocketType.Wifi, 3, ⟨2, 36895, 0⟩, 16⟩ ∧
      0 < getPort ⟨8080, SocketType.Wifi, 3, ⟨2, 36895, 0⟩, 16⟩ ∧
      getPort ⟨8080, SocketType.Wifi, 3, ⟨2, 36895, 0⟩, 16⟩ ≤ 65535) ∧
    (∃ new, ([Call.listen 3 5, Call.bind 3 (SockAddr.rc ⟨31, 0, 44⟩) 10,
        Call.socket 31 1 3] : List Call) = new ++ World.initial.calls ∧
      (socketReturn Kernel.healthy SocketType.Bluetooth World.initial ≠ -1 →
        ∃ fd addr len, Call.bind fd addr len ∈ new) ∧
      ∀ fd addr len, Call.bind fd addr len ∈ new →
        (SocketType.Bluetooth = SocketType.Wifi → boundPort addr = 300 % 65536) ∧
        (SocketType.Bluetooth = SocketType.Bluetooth → boundPort addr = 300 % 256)) :=
  ⟨((bound_port_of_construction Kernel.healthy (fun _ => 0) 0 SocketType.Wifi 8080 5
      World.initial
      ⟨[Call.listen 3 5, Call.bind 3 (SockAddr.inet ⟨2, 36895, 0⟩) 16, Call.socket 2 1 0],
        [3], 0, []⟩
      (Result.ok ⟨8080, SocketType.Wifi, 3, ⟨2, 36895, 0⟩, 16⟩) (by rfl)).1 _ rfl).2.2.2
      (by decide),
    (bound_port_of_construction Kernel.healthy (fun _ => 0) 0 SocketType.Bluetooth 300 5
      World.initial
      ⟨[Call.listen 3 5, Call.bind 3 (SockAddr.rc ⟨31, 0, 44⟩) 10, Call.socket 31 1 3],
        [3], 0, []⟩
      (Result.throw (Exception.SocketException "Still in progress.")) (by rfl)).2 (by decide)⟩

/-- C9, as stated, fails: the construction on the explicit Wifi port 73616
succeeds, `getPort()` is 73616 and the port handed to `bind` is 8080; on the
explicit port 65536 the port handed to `bind` is 0.  On the Bluetooth transport
the channel handed to `bind` for the explicit port 300 is 44. -/
theorem bound_port_truncated :
    ServerSocket.construct Kernel.healthy (fun _ => 0) 0 SocketType.Wifi 73616 5 World.initial
        = some (Result.ok ⟨73616, SocketType.Wifi, 3, ⟨2, 36895, 0⟩, 16⟩,
            ⟨[Call.listen 3 5, Call.bind 3 (SockAddr.inet ⟨2, 36895, 0⟩) 16, Call.socket 2 1 0],
              [3], 0, []⟩) ∧
      getPort ⟨73616, SocketType.Wifi, 3, ⟨2, 36895, 0⟩, 16⟩ = 73616 ∧
      boundPort (SockAddr.inet ⟨2, 36895, 0⟩) = 8080 ∧
      ServerSocket.construct Kernel.healthy (fun _ => 0) 0 SocketType.Wifi 65536 5 World.initial
        = some (Result.ok ⟨65536, SocketType.Wifi, 3, ⟨2, 0, 0⟩, 16⟩,
            ⟨[Call.listen 3 5, Call.bind 3 (SockAddr.inet ⟨2, 0, 0⟩) 16, Call.socket 2 1 0],
              [3], 0, []⟩) ∧
      getPort ⟨65536, SocketType.Wifi, 3, ⟨2, 0, 0⟩, 16⟩ = 65536 ∧
      boundPort (SockAddr.inet ⟨2, 0, 0⟩) = 0 ∧
      ServerSocket.construct Kernel.healthy (fun _ => 0) 0 SocketType.Bluetooth 300 5
          World.initial
        = some (Result.throw (Exception.SocketException "Still in progress."),
            ⟨[Call.listen 3 5, Call.bind 3 (SockAddr.rc ⟨31, 0, 44⟩) 10, Call.socket 31 1 3],
              [3], 0, []⟩) ∧
      boundPort (SockAddr.rc ⟨31, 0, 44⟩) = 44 := by
  decide

end kt
